import Mathlib

/-!
Verification of the CHW (Coastal Hazard Wheel) classification engine of the
`chw3.0-wps` repository against its specification.

The development shallowly embeds:
* the slope-profile analyzer (`processes/raster_utils.py`: `detect_pattern`,
  `calc_slope`) over exact rationals,
* the six-stage classifier (`processes/chw_utils.py`, class `CHW`) as a state
  record updated by one function per stage, with all external database and
  raster lookups supplied by an oracle record (a fallible lookup is an
  `Option`, `none` standing for a raised exception or an empty result),
* the decision-table and measures lookup (`db_utils.get_classes`,
  `db_utils.get_measures` and their consumers), and
* the error policy of the strict test-environment variant
  (`processes/chw_utils_test_environment.py`).
-/

/-! ## Slope analyzer (`raster_utils.py`) -/

/-- `np.nan_to_num`: elevations come from raster sampling and may be NoData
(`none`); they are normalized to 0 before slope analysis. -/
def nanToNum (l : List (Option ℚ)) : List ℚ :=
  l.map (fun v => v.getD 0)

/-- `np.diff`: consecutive differences. -/
def diffs (l : List ℚ) : List ℚ :=
  (l.zip l.tail).map (fun p => p.2 - p.1)

/-- `np.sign` on an exact rational. -/
def qsign (q : ℚ) : Int :=
  if 0 < q then 1 else if q < 0 then -1 else 0

/-- The per-interval slope signs `msign = np.sign(np.diff(y) / np.diff(x))`
of a profile, after NoData normalization.  The sampling distances produced by
`line_segmentation` are strictly increasing, so the interval widths are
nonzero. -/
def msigns (elevations : List (Option ℚ)) (segments : List ℚ) : List Int :=
  (List.zipWith (fun dy dx => dy / dx) (diffs (nanToNum elevations)) (diffs segments)).map qsign

/-- `detect_pattern(searchval, array)`:
`(array[:-1] == searchval[0]) & (array[1:] == searchval[1])`. -/
def detect_pattern (s : Int × Int) (a : List Int) : List Bool :=
  (a.zip a.tail).map (fun p => p.1 == s.1 && p.2 == s.2)

/-- Elementwise `or` of two equal-length boolean arrays (the
`any(pattern) for pattern in zip(...)` combination in `calc_slope`). -/
def orZip (l1 l2 : List Bool) : List Bool :=
  List.zipWith or l1 l2

/-- `slope_patterns`: a changepoint flag for each consecutive pair of slope
signs, true when the pair matches one of `(0,1)`, `(1,-1)`, `(-1,1)`,
`(-1,0)`, `(1,0)`. -/
def slope_patterns (msign : List Int) : List Bool :=
  orZip (detect_pattern (0, 1) msign)
    (orZip (detect_pattern (1, -1) msign)
      (orZip (detect_pattern (-1, 1) msign)
        (orZip (detect_pattern (-1, 0) msign)
          (detect_pattern (1, 0) msign))))

/-- `indeces = np.where(slope_patterns == True)[0] + 2`. -/
def changepointIndices (sp : List Bool) : List Nat :=
  ((List.range sp.length).filter (fun i => sp.getD i false)).map (fun i => i + 2)

/-- The ways the Python slope computation can raise: indexing the empty
changepoint array (`indeces_end[0]` with no changepoints), and the
`ValueError`s of `scipy.stats.linregress` / `statistics.mean` on empty or
degenerate segments. -/
inductive SlopeErr where
  | indexOutOfBounds
  | emptyInput
  | degenerateRegression
deriving DecidableEq

/-- The slope of `scipy.stats.linregress`:
`(n·Σxy − Σx·Σy) / (n·Σx² − (Σx)²)`, raising on empty input or when all x
values are identical. -/
def linregress_slope (x y : List ℚ) : Except SlopeErr ℚ :=
  if x.length = 0 ∨ y.length = 0 then .error .emptyInput
  else
    if (x.length : ℚ) * (x.map (fun a => a * a)).sum - x.sum * x.sum = 0 then
      .error .degenerateRegression
    else
      .ok (((x.length : ℚ) * ((x.zip y).map (fun p => p.1 * p.2)).sum - x.sum * y.sum) /
        ((x.length : ℚ) * (x.map (fun a => a * a)).sum - x.sum * x.sum))

/-- The regression segments of `calc_slope`'s loop, for a nonempty changepoint
index list `ind`: `y[:ind[0]]`, then `y[ind[i-1]-1 : ind[i]]` for consecutive
changepoints, then `y[ind[k-1]-1 :]` (and the same slices of `x`). -/
def segmentSlices (x y : List ℚ) (ind : List Nat) : List (List ℚ × List ℚ) :=
  ((x.take (ind.headD 0), y.take (ind.headD 0)) ::
    (ind.zip ind.tail).map (fun p =>
      ((x.drop (p.1 - 1)).take (p.2 - (p.1 - 1)), (y.drop (p.1 - 1)).take (p.2 - (p.1 - 1)))))
  ++ [(x.drop (ind.getLastD 0 - 1), y.drop (ind.getLastD 0 - 1))]

/-- `calc_slope(elevations, segments)`: changepoint-segmented regression,
returning `(mean_slope_pct, max_slope_pct)` over `|segment slope × 100|`.
With an empty changepoint list the Python loop evaluates `indeces_end[0]` on
an empty array and raises `IndexError`, modelled by `.error .indexOutOfBounds`. -/
def calc_slope (elevations : List (Option ℚ)) (segments : List ℚ) :
    Except SlopeErr (ℚ × ℚ) :=
  match changepointIndices (slope_patterns (msigns elevations segments)) with
  | [] => .error .indexOutOfBounds
  | i0 :: rest =>
    match (segmentSlices segments (nanToNum elevations) (i0 :: rest)).mapM
        (fun p => (linregress_slope p.1 p.2).map (fun s => |s * 100|)) with
    | .error e => .error e
    | .ok [] => .error .emptyInput
    | .ok (s :: srest) =>
      .ok (((s :: srest).sum) / (((s :: srest).length : ℚ)), srest.foldl max s)

/-- `round(x, 1)`.  Python rounds ties to even; `round` here rounds ties up.
The two agree except at exact midpoints `k/20`, which no claim depends on. -/
def roundTo1 (q : ℚ) : ℚ :=
  ((round (q * 10) : ℤ) : ℚ) / 10

/-- The slope block of `CHW.__init__` (`chw_utils.py` lines 131-145): mean
slope rounded to one decimal, with any exception from `calc_slope` caught and
the slope defaulted to `0.00`. -/
def chwInitSlope (elevations : List (Option ℚ)) (segments : List ℚ) : ℚ :=
  match calc_slope elevations segments with
  | .ok ms => roundTo1 ms.1
  | .error _ => 0

/-- The changepoint test on one sign pair, as a single boolean (used to relate
the five zipped `detect_pattern` arrays to a pointwise condition). -/
def pattern_pair (p : Int × Int) : Bool :=
  p.1 == 0 && p.2 == 1 || p.1 == 1 && p.2 == -1 || p.1 == -1 && p.2 == 1 ||
    p.1 == -1 && p.2 == 0 || p.1 == 1 && p.2 == 0

/-! ## The CHW classifier (`chw_utils.py`, class `CHW`) -/

/-- The tunable cut-off constants of the classifier.  The production file
`chw_utils.py` hard-codes `3` (hard-rock slope), `4` (barrier/delta slope) and
`2` (coral-island median elevation) with a vegetation slope cut-off of `30`;
the test-environment file names them `cov_slope_hr = 2.3`, `cov_slope_bd = 3.5`,
`cov_elev_ci = 14`, `cov_slope_veg = 59`. -/
structure Cfg where
  slope_hr : ℚ
  slope_bd : ℚ
  elev_ci : ℚ
  slope_veg : ℚ

/-- The constants of the production classifier `chw_utils.py`. -/
def prodCfg : Cfg := ⟨3, 4, 2, 30⟩

/-- All external inputs of one classification run: results of the spatial
database predicates and lookups, and the context derived in `CHW.__init__`
(`slope`, `geology`, `corals`).  A fallible lookup is an `Option`; `none`
models a raised exception (or, for `geology` itself, a NULL result — both are
mapped to Python `None` by `__init__`). -/
structure Oracle where
  slope : ℚ := 0
  geology : Option String := none
  corals : Bool := false
  smallEstuaryWkt : Bool := false
  smallEstuary100m : Bool := false
  smallIsland : Bool := false
  medianElevation : ℚ := 0
  barriersSandspits : Bool := false
  estuaries100m : Bool := false
  estuariesWkt : Bool := false
  coastline_id : ℚ := 0
  coasts10 : List ℚ := []
  coasts100 : List ℚ := []
  waveLookup : Option String := none
  tidalLookup : Option String := none
  mangroves : Bool := false
  saltmarshes : Bool := false
  slope200 : ℚ := 0
  nonvegCount : Nat := 0
  rasterSize : Nat := 0
  lat : ℚ := 0
  beachWkt : Option Bool := none
  beach200m : Option Bool := none
  shorelineChange : Option String := none
  changeRate : Option ℚ := none
  cycloneLookup : Option String := none

/-- The six classification-axis fields with their construction-time sentinel
defaults (`CHW.__init__`, `chw_utils.py` lines 70-76). -/
structure CHWState where
  geological_layout : String := "Any"
  wave_exposure : String := "Any"
  tidal_range : String := "any"
  flora_fauna : String := "Any"
  sediment_balance : String := "Balance/Deficit"
  storm_climate : String := "Any"

/-- The state right after `CHW.__init__`. -/
def initState : CHWState := {}

/-- `geology_material`: `"unconsolidated" if geology in ["su","fluvisol","wb"]
else "consolidated"` (so unknown geology gives `"consolidated"`). -/
def geology_material (g : Option String) : String :=
  if g = some "su" ∨ g = some "fluvisol" ∨ g = some "wb" then "unconsolidated"
  else "consolidated"

/-- `CHW.check_coral_islands`: small island, corals present, and median
elevation below the coral-island cut-off. -/
def check_coral_islands (cfg : Cfg) (o : Oracle) : Bool :=
  o.smallIsland && o.corals && decide (o.medianElevation < cfg.elev_ci)

/-- `CHW.special_case_flat_hard_rock`: corals and slope strictly below the
hard-rock cut-off. -/
def special_case_flat_hard_rock (cfg : Cfg) (o : Oracle) : Bool :=
  o.corals && decide (o.slope < cfg.slope_hr)

/-- `CHW.special_case_sloping_hard_rock`: corals and slope at or above the
hard-rock cut-off. -/
def special_case_sloping_hard_rock (cfg : Cfg) (o : Oracle) : Bool :=
  o.corals && decide (o.slope ≥ cfg.slope_hr)

/-- `CHW.check_geology_type`: the geology-type rule on the derived material
and the slope. -/
def check_geology_type (cfg : Cfg) (material : String) (slope : ℚ) : String :=
  if material = "unconsolidated" ∧ slope ≤ cfg.slope_hr then "Sediment plain"
  else if material = "unconsolidated" ∧ slope > cfg.slope_hr then "Sloping soft rock"
  else if material = "consolidated" ∧ slope ≤ cfg.slope_hr then "Flat hard rock"
  else "Sloping hard rock"

/-- `CHW.special_case_hard_rock`: the slope-only fallback when no geology was
retrieved. -/
def special_case_hard_rock (cfg : Cfg) (slope : ℚ) : String :=
  if slope ≤ cfg.slope_hr then "Flat hard rock" else "Sloping hard rock"

/-- The value assigned by `CHW.get_info_geological_layout`: the
priority-ordered cascade, first true branch wins. -/
def geoLayoutVal (cfg : Cfg) (o : Oracle) : String :=
  if ((o.smallEstuaryWkt || o.smallEstuary100m) = true) ∧ o.slope ≤ cfg.slope_bd then
    "Tidal inlet/sand spit/river mouth"
  else if check_coral_islands cfg o = true then "Coral island"
  else if special_case_flat_hard_rock cfg o = true then "Flat hard rock"
  else if special_case_sloping_hard_rock cfg o = true then "Sloping hard rock"
  else if (o.barriersSandspits = true) ∧ geology_material o.geology = "unconsolidated" ∧
      o.slope ≤ cfg.slope_bd then "Barrier"
  else if ((o.estuaries100m || o.estuariesWkt) = true) ∧
      geology_material o.geology = "unconsolidated" ∧ o.slope ≤ cfg.slope_bd then
    "Delta/ low estuary island"
  else if o.geology ≠ none then check_geology_type cfg (geology_material o.geology) o.slope
  else special_case_hard_rock cfg o.slope

/-- The accuracy fix of `get_info_wave_exposure`: append the transect's own
coastline id to a closest-coasts list when it is missing. -/
def injectId (cid : ℚ) (l : List ℚ) : List ℚ :=
  if cid ∈ l then l else l ++ [cid]

/-- The value assigned by `CHW.get_info_wave_exposure`: base lookup (failure
defaults to `"moderately exposed"`), then the 10 km / 100 km de-escalation
checks on the id-injected closest-coast lists.  In the `"exposed"` branch the
two inner `if`s run in sequence, so a 10 km hit wins over the 100 km one. -/
def waveExposureVal (o : Oracle) : String :=
  if o.waveLookup.getD "moderately exposed" = "moderately exposed" then
    (if (injectId o.coastline_id o.coasts10).length > 1 then "protected"
     else o.waveLookup.getD "moderately exposed")
  else if o.waveLookup.getD "moderately exposed" = "exposed" then
    (if (injectId o.coastline_id o.coasts10).length > 1 then "protected"
     else if (injectId o.coastline_id o.coasts100).length > 1 then "moderately exposed"
     else o.waveLookup.getD "moderately exposed")
  else o.waveLookup.getD "moderately exposed"

/-- The value assigned by `CHW.get_info_tidal_range`: lookup with exception
fallback `"micro"`. -/
def tidalRangeVal (l : Option String) : String :=
  l.getD "micro"

/-- `CHW.get_vegetation`: vegetated when the 200 m-inland slope is below the
vegetation cut-off and the non-bare land-cover pixels are not outnumbered by
the bare ones (`nonvegCount` counts codes 150/190/200/220 in the clipped
land-cover raster of `rasterSize` pixels). -/
def get_vegetation (cfg : Cfg) (o : Oracle) : String :=
  if o.slope200 < cfg.slope_veg ∧
      ((o.rasterSize : Int) - (o.nonvegCount : Int) ≥ (o.nonvegCount : Int)) then
    "Vegetated"
  else "Not vegetated"

/-- The value assigned by `CHW.get_info_flora_fauna`, branching on the
already-resolved layout, wave exposure and tidal range. -/
def floraFaunaVal (cfg : Cfg) (o : Oracle) (st : CHWState) : String :=
  if st.geological_layout = "Sloping soft rock" then get_vegetation cfg o
  else if st.geological_layout = "Flat hard rock" ∧ st.wave_exposure = "protected" ∧
      o.mangroves = false ∧ o.saltmarshes = false then "No"
  else if st.geological_layout ∈ (["Sloping hard rock", "Flat hard rock", "Coral island"] : List String) then
    (if o.corals = true then "Corals"
     else if (o.mangroves || o.saltmarshes) = true then "Marsh/mangrove"
     else st.flora_fauna)
  else if o.saltmarshes = true then
    (if st.tidal_range = "micro" then "Intermittent marsh" else "Marsh/tidal flat")
  else if o.mangroves = true then
    (if st.tidal_range = "micro" then "Intermittent mangrove" else "Mangrove/tidal flat")
  else if -25 ≤ o.lat ∧ o.lat ≤ 25 then
    (if st.tidal_range = "micro" then "Intermittent mangrove" else "Mangrove/tidal flat")
  else
    (if st.tidal_range = "micro" then "Intermittent marsh" else "Marsh/tidal flat")

/-- The value assigned by `CHW.get_info_sediment_balance`.  For hard-rock
layouts the beach checks (`none` = exception, caught to `"No Beach"`); else
the surplus rule, where a missing shoreline-change value (Python `None`)
passes the `!= "Low"` test and a missing change rate raises a `TypeError`
that the handler turns into `"Balance/Deficit"`; when the rule does not fire
the field keeps its previous value. -/
def sedimentBalanceVal (o : Oracle) (st : CHWState) : String :=
  if st.geological_layout ∈ (["Flat hard rock", "Sloping hard rock"] : List String) then
    match o.beachWkt, o.beach200m with
    | none, _ => "No Beach"
    | some true, _ => "Beach"
    | some false, none => "No Beach"
    | some false, some true => "Beach"
    | some false, some false => "No Beach"
  else
    if o.shorelineChange ≠ some "Low" then
      match o.changeRate with
      | none => "Balance/Deficit"
      | some r => if r > 0.5 then "Surplus" else st.sediment_balance
    else st.sediment_balance

/-- The value assigned by `CHW.get_info_storm_climate`: cyclone-risk lookup
with exception fallback `"No"`. -/
def stormClimateVal (l : Option String) : String :=
  l.getD "No"

/-- Stage 1, `CHW.get_info_geological_layout`: writes only
`geological_layout`. -/
def get_info_geological_layout (cfg : Cfg) (o : Oracle) (st : CHWState) : CHWState :=
  { st with geological_layout := geoLayoutVal cfg o }

/-- Stage 2, `CHW.get_info_wave_exposure`: writes only `wave_exposure`. -/
def get_info_wave_exposure (o : Oracle) (st : CHWState) : CHWState :=
  { st with wave_exposure := waveExposureVal o }

/-- Stage 3, `CHW.get_info_tidal_range`: writes only `tidal_range`. -/
def get_info_tidal_range (o : Oracle) (st : CHWState) : CHWState :=
  { st with tidal_range := tidalRangeVal o.tidalLookup }

/-- Stage 4, `CHW.get_info_flora_fauna`: writes only `flora_fauna`. -/
def get_info_flora_fauna (cfg : Cfg) (o : Oracle) (st : CHWState) : CHWState :=
  { st with flora_fauna := floraFaunaVal cfg o st }

/-- Stage 5, `CHW.get_info_sediment_balance`: writes only
`sediment_balance`. -/
def get_info_sediment_balance (o : Oracle) (st : CHWState) : CHWState :=
  { st with sediment_balance := sedimentBalanceVal o st }

/-- Stage 6, `CHW.get_info_storm_climate`: writes only `storm_climate`. -/
def get_info_storm_climate (o : Oracle) (st : CHWState) : CHWState :=
  { st with storm_climate := stormClimateVal o.cycloneLookup }

/-- The pipeline after stage 1. -/
def stage1 (cfg : Cfg) (o : Oracle) : CHWState :=
  get_info_geological_layout cfg o initState

/-- The pipeline after stage 2. -/
def stage2 (cfg : Cfg) (o : Oracle) : CHWState :=
  get_info_wave_exposure o (stage1 cfg o)

/-- The pipeline after stage 3. -/
def stage3 (cfg : Cfg) (o : Oracle) : CHWState :=
  get_info_tidal_range o (stage2 cfg o)

/-- The pipeline after stage 4. -/
def stage4 (cfg : Cfg) (o : Oracle) : CHWState :=
  get_info_flora_fauna cfg o (stage3 cfg o)

/-- The pipeline after stage 5. -/
def stage5 (cfg : Cfg) (o : Oracle) : CHWState :=
  get_info_sediment_balance o (stage4 cfg o)

/-- The pipeline after stage 6. -/
def stage6 (cfg : Cfg) (o : Oracle) : CHWState :=
  get_info_storm_climate o (stage5 cfg o)

/-! ## Axis enumerations (spec glossary) -/

/-- Geological layout values producible by the production cascade. -/
def glEnum : List String :=
  ["Sediment plain", "Sloping soft rock", "Flat hard rock", "Sloping hard rock",
   "Barrier", "Delta/ low estuary island", "Coral island",
   "Tidal inlet/sand spit/river mouth"]

/-- Wave exposure values. -/
def weEnum : List String := ["exposed", "moderately exposed", "protected"]

/-- Tidal range values. -/
def trEnum : List String := ["micro", "meso", "macro"]

/-- Flora/fauna values. -/
def ffEnum : List String :=
  ["Corals", "Marsh/mangrove", "Intermittent marsh", "Intermittent mangrove",
   "Marsh/tidal flat", "Mangrove/tidal flat", "Vegetated", "Not vegetated",
   "No", "Any"]

/-- Sediment balance values. -/
def sbEnum : List String := ["Beach", "No Beach", "Surplus", "Balance/Deficit"]

/-- Storm climate values. -/
def scEnum : List String := ["Yes", "No"]

/-! ## Decision table and measures (`db_utils.get_classes` / `get_measures`
and their consumers `hazards_classification` / `provide_measures`) -/

/-- One row of the `chw.decision_wheel` table: an exact-match geological
layout, per-axis allowed sets, the hazard code and five severities. -/
structure DecisionRow where
  geological_layout : String
  wave_exposure : List String
  tidal_range : List String
  flora_fauna : List String
  sediment_balance : List String
  storm_climate : List String
  code : String
  ecosystem_disruption : Int
  gradual_inundation : Int
  salt_water_intrusion : Int
  erosion : Int
  flooding : Int

/-- The WHERE clause of `db_utils.get_classes`. -/
def rowMatches (r : DecisionRow) (gl we tr ff sb sc : String) : Bool :=
  r.geological_layout == gl && r.wave_exposure.contains we &&
    r.tidal_range.contains tr && r.flora_fauna.contains ff &&
    r.sediment_balance.contains sb && r.storm_climate.contains sc

/-- `db_utils.get_classes`: the first matching decision row, or `none`
(`fetchone` on an empty result) when no row matches. -/
def get_classes (table : List DecisionRow) (gl we tr ff sb sc : String) :
    Option (String × Int × Int × Int × Int × Int) :=
  (table.find? (fun r => rowMatches r gl we tr ff sb sc)).map
    (fun r => (r.code, r.ecosystem_disruption, r.gradual_inundation,
      r.salt_water_intrusion, r.erosion, r.flooding))

/-- A severity field of `CHW.hazards_classification`: an integer from the
decision table, or the string sentinel `"None"` after a failed lookup. -/
inductive HazardVal where
  | sev : Int → HazardVal
  | noneSentinel : HazardVal
deriving DecidableEq

/-- The result fields set by `CHW.hazards_classification`. -/
structure HazardResult where
  code : String
  ecosystem_disruption : HazardVal
  gradual_inundation : HazardVal
  salt_water_intrusion : HazardVal
  erosion : HazardVal
  flooding : HazardVal
deriving DecidableEq

/-- `CHW.hazards_classification`: unpack the matched row, or (when
`get_classes` yields no row, so the tuple unpacking raises) set the code and
all five severities to `"None"`. -/
def hazards_classification (table : List DecisionRow) (gl we tr ff sb sc : String) :
    HazardResult :=
  match get_classes table gl we tr ff sb sc with
  | some (c, e, g, s, er, f) => ⟨c, .sev e, .sev g, .sev s, .sev er, .sev f⟩
  | none => ⟨"None", .noneSentinel, .noneSentinel, .noneSentinel, .noneSentinel, .noneSentinel⟩

/-- Lookup in the dict built from the `get_measures` rows (later rows win, as
with `dict.update` in iteration order). -/
def dlookup (rows : List (String × List String)) (k : String) : Option (List String) :=
  (rows.reverse.find? (fun p => p.1 == k)).map (fun p => p.2)

/-- The five measure lists set by `CHW.provide_measures`. -/
structure MeasuresResult where
  ecosystem_disruption_measures : List String
  gradual_inundation_measures : List String
  salt_water_intrusion_measures : List String
  erosion_measures : List String
  flooding_measures : List String
deriving DecidableEq

/-- The `except` branch of `CHW.provide_measures`. -/
def noMeasures : MeasuresResult :=
  ⟨["No measures were found"], ["No measures were found"], ["No measures were found"],
   ["No measures were found"], ["No measures were found"]⟩

/-- `CHW.provide_measures`: read the five hazard categories from the grouped
`get_measures` rows in assignment order; the first missing key raises
`KeyError` and every category falls back to `["No measures were found"]`. -/
def provide_measures (rows : List (String × List String)) : MeasuresResult :=
  match dlookup rows "Ecosystem disruption" with
  | none => noMeasures
  | some a =>
    match dlookup rows "Gradual inundation" with
    | none => noMeasures
    | some b =>
      match dlookup rows "Salt water intrusion" with
      | none => noMeasures
      | some c =>
        match dlookup rows "Erosion" with
        | none => noMeasures
        | some d =>
          match dlookup rows "Flooding" with
          | none => noMeasures
          | some e => ⟨a, b, c, d, e⟩

/-! ## The strict test-environment variant
(`chw_utils_test_environment.py`) -/

/-- The message of the fatal error raised by the strict variant's
constructor. -/
def noElevationMsg : String :=
  "There are no elevation data in the area, please try another location"

/-- The slope of the production `CHW.__init__` as a function of the
elevation-profile fetch (`none` = `cut_wcs`/`get_elevation_profile` failed):
every failure is caught and the slope defaults to `0.00`. -/
def initSlopeProd (profile : Option (List (Option ℚ) × List ℚ)) : ℚ :=
  match profile with
  | none => 0
  | some p => chwInitSlope p.1 p.2

/-- The slope of the strict test-environment `CHW.__init__`: any failure in
the same block (profile fetch or `calc_slope`) is re-raised as the fatal
"no elevation data" error. -/
def initSlopeStrict (profile : Option (List (Option ℚ) × List ℚ)) : Except String ℚ :=
  match profile with
  | none => .error noElevationMsg
  | some p =>
    match calc_slope p.1 p.2 with
    | .ok ms => .ok (roundTo1 ms.1)
    | .error _ => .error noElevationMsg

/-- The strict variant's geology lookup: the `try/except` maps an exception
to Python `None`, never re-raising. -/
def strictGeology (l : Option (Option String)) : Except String (Option String) :=
  .ok (match l with | none => none | some g => g)

/-- The strict variant's wave-exposure stage: identical fail-soft body, never
re-raising. -/
def strictWave (o : Oracle) : Except String String :=
  .ok (waveExposureVal o)

/-- The strict variant's tidal-range stage: identical fail-soft body, never
re-raising. -/
def strictTidal (l : Option String) : Except String String :=
  .ok (tidalRangeVal l)

/-- The strict variant's sediment-balance stage: identical fail-soft body,
never re-raising. -/
def strictSediment (o : Oracle) (st : CHWState) : Except String String :=
  .ok (sedimentBalanceVal o st)

/-- The strict variant's storm-climate stage: identical fail-soft body, never
re-raising. -/
def strictStorm (l : Option String) : Except String String :=
  .ok (stormClimateVal l)

/-- The strict variant's hazard classification: identical fail-soft body,
never re-raising. -/
def strictHazards (table : List DecisionRow) (gl we tr ff sb sc : String) :
    Except String HazardResult :=
  .ok (hazards_classification table gl we tr ff sb sc)

/-- The strict variant's measures resolution: identical fail-soft body, never
re-raising. -/
def strictMeasures (rows : List (String × List String)) : Except String MeasuresResult :=
  .ok (provide_measures rows)

/-! ## Concrete inputs used by witnesses and counterexamples -/

/-- Wave-exposure counterexample input: raw `"exposed"`, two coastlines within
100 km, a single coastline within 10 km that is not the transect's own. -/
def oCex1 : Oracle :=
  { coastline_id := 7, coasts10 := [5], coasts100 := [1, 2],
    waveLookup := some "exposed" }

/-- Wave-exposure witness input: as `oCex1` but the single 10 km coastline is
the transect's own. -/
def oW1 : Oracle :=
  { coastline_id := 5, coasts10 := [5], coasts100 := [1, 2],
    waveLookup := some "exposed" }

/-- Witness input for the flat-hard-rock special case: corals, slope 1,
geology `"su"` (which alone would classify as `"Sediment plain"`). -/
def oW5 : Oracle := { corals := true, slope := 1, geology := some "su" }

/-- Witness input for the geology-type rule: geology `"su"`, slope 1, every
earlier cascade predicate false. -/
def oW6 : Oracle := { geology := some "su", slope := 1 }

/-- Witness input for the axis-field invariant. -/
def oW8 : Oracle :=
  { waveLookup := some "exposed", tidalLookup := some "meso",
    cycloneLookup := some "Yes" }

/-- Witness input for the unknown-geology claim: no geology, barrier and
estuary intersections all true, low slope. -/
def oW10 : Oracle :=
  { geology := none, barriersSandspits := true, estuaries100m := true,
    estuariesWkt := true, slope := 1 }

/-- The big conjunction of the axis-field invariant: construction-time
sentinels; each stage writes only its own axis field; each field keeps its
sentinel until its stage runs; after its stage each field is a valid member
of its enumeration; later stages preserve earlier results. -/
def AxisInvariant (cfg : Cfg) (o : Oracle) : Prop :=
  (initState.geological_layout = "Any" ∧ initState.wave_exposure = "Any" ∧
    initState.tidal_range = "any" ∧ initState.flora_fauna = "Any" ∧
    initState.sediment_balance = "Balance/Deficit" ∧ initState.storm_climate = "Any") ∧
  (∀ st : CHWState,
    (get_info_geological_layout cfg o st).wave_exposure = st.wave_exposure ∧
    (get_info_geological_layout cfg o st).tidal_range = st.tidal_range ∧
    (get_info_geological_layout cfg o st).flora_fauna = st.flora_fauna ∧
    (get_info_geological_layout cfg o st).sediment_balance = st.sediment_balance ∧
    (get_info_geological_layout cfg o st).storm_climate = st.storm_climate) ∧
  (∀ st : CHWState,
    (get_info_wave_exposure o st).geological_layout = st.geological_layout ∧
    (get_info_wave_exposure o st).tidal_range = st.tidal_range ∧
    (get_info_wave_exposure o st).flora_fauna = st.flora_fauna ∧
    (get_info_wave_exposure o st).sediment_balance = st.sediment_balance ∧
    (get_info_wave_exposure o st).storm_climate = st.storm_climate) ∧
  (∀ st : CHWState,
    (get_info_tidal_range o st).geological_layout = st.geological_layout ∧
    (get_info_tidal_range o st).wave_exposure = st.wave_exposure ∧
    (get_info_tidal_range o st).flora_fauna = st.flora_fauna ∧
    (get_info_tidal_range o st).sediment_balance = st.sediment_balance ∧
    (get_info_tidal_range o st).storm_climate = st.storm_climate) ∧
  (∀ st : CHWState,
    (get_info_flora_fauna cfg o st).geological_layout = st.geological_layout ∧
    (get_info_flora_fauna cfg o st).wave_exposure = st.wave_exposure ∧
    (get_info_flora_fauna cfg o st).tidal_range = st.tidal_range ∧
    (get_info_flora_fauna cfg o st).sediment_balance = st.sediment_balance ∧
    (get_info_flora_fauna cfg o st).storm_climate = st.storm_climate) ∧
  (∀ st : CHWState,
    (get_info_sediment_balance o st).geological_layout = st.geological_layout ∧
    (get_info_sediment_balance o st).wave_exposure = st.wave_exposure ∧
    (get_info_sediment_balance o st).tidal_range = st.tidal_range ∧
    (get_info_sediment_balance o st).flora_fauna = st.flora_fauna ∧
    (get_info_sediment_balance o st).storm_climate = st.storm_climate) ∧
  (∀ st : CHWState,
    (get_info_storm_climate o st).geological_layout = st.geological_layout ∧
    (get_info_storm_climate o st).wave_exposure = st.wave_exposure ∧
    (get_info_storm_climate o st).tidal_range = st.tidal_range ∧
    (get_info_storm_climate o st).flora_fauna = st.flora_fauna ∧
    (get_info_storm_climate o st).sediment_balance = st.sediment_balance) ∧
  ((stage1 cfg o).wave_exposure = "Any" ∧ (stage1 cfg o).tidal_range = "any" ∧
    (stage1 cfg o).flora_fauna = "Any" ∧
    (stage1 cfg o).sediment_balance = "Balance/Deficit" ∧
    (stage1 cfg o).storm_climate = "Any") ∧
  ((stage2 cfg o).tidal_range = "any" ∧ (stage2 cfg o).flora_fauna = "Any" ∧
    (stage2 cfg o).sediment_balance = "Balance/Deficit" ∧
    (stage2 cfg o).storm_climate = "Any") ∧
  ((stage3 cfg o).flora_fauna = "Any" ∧
    (stage3 cfg o).sediment_balance = "Balance/Deficit" ∧
    (stage3 cfg o).storm_climate = "Any") ∧
  ((stage4 cfg o).sediment_balance = "Balance/Deficit" ∧
    (stage4 cfg o).storm_climate = "Any") ∧
  ((stage5 cfg o).storm_climate = "Any") ∧
  (stage1 cfg o).geological_layout ∈ glEnum ∧
  (stage2 cfg o).wave_exposure ∈ weEnum ∧
  (stage3 cfg o).tidal_range ∈ trEnum ∧
  (stage4 cfg o).flora_fauna ∈ ffEnum ∧
  (stage5 cfg o).sediment_balance ∈ sbEnum ∧
  (stage6 cfg o).storm_climate ∈ scEnum ∧
  ((stage6 cfg o).geological_layout = (stage1 cfg o).geological_layout ∧
    (stage6 cfg o).wave_exposure = (stage2 cfg o).wave_exposure ∧
    (stage6 cfg o).tidal_range = (stage3 cfg o).tidal_range ∧
    (stage6 cfg o).flora_fauna = (stage4 cfg o).flora_fauna ∧
    (stage6 cfg o).sediment_balance = (stage5 cfg o).sediment_balance)

/-! ### Lemmas about the changepoint detector -/

theorem orZip_map_map {α : Type} (f g : α → Bool) :
    ∀ z : List α, orZip (z.map f) (z.map g) = z.map (fun x => f x || g x)
  | [] => rfl
  | a :: t => by
    simp only [List.map_cons, orZip, List.zipWith_cons_cons]
    exact congrArg _ (orZip_map_map f g t)

theorem slope_patterns_eq (msign : List Int) :
    slope_patterns msign = (msign.zip msign.tail).map pattern_pair := by
  unfold slope_patterns detect_pattern
  rw [orZip_map_map, orZip_map_map, orZip_map_map, orZip_map_map]
  simp [pattern_pair, Bool.or_assoc]

theorem zip_tail_get? {α : Type} (l : List α) :
    ∀ i : Nat, (l.zip l.tail).get? i =
      match l.get? i, l.get? (i + 1) with
      | some a, some b => some (a, b)
      | _, _ => none := by
  induction l with
  | nil => intro i; simp
  | cons a t ih =>
    intro i
    cases t with
    | nil => cases i <;> simp
    | cons b t2 =>
      cases i with
      | zero => simp
      | succ j =>
        have h := ih j
        simpa using h

set_option maxHeartbeats 1000000 in
theorem geoLayoutVal_mem (cfg : Cfg) (o : Oracle) : geoLayoutVal cfg o ∈ glEnum := by
  unfold geoLayoutVal check_geology_type special_case_hard_rock
  split_ifs <;> simp [glEnum]

theorem waveExposureVal_mem (o : Oracle)
    (hw : ∀ v, o.waveLookup = some v → v ∈ weEnum) :
    waveExposureVal o ∈ weEnum := by
  cases h : o.waveLookup with
  | none =>
    simp only [waveExposureVal, h, Option.getD_none]
    split_ifs <;> simp [weEnum]
  | some v =>
    have hv := hw v h
    simp only [weEnum, List.mem_cons, List.mem_singleton, List.not_mem_nil, or_false] at hv
    rcases hv with rfl | rfl | rfl <;>
      simp only [waveExposureVal, h, Option.getD_some] <;> split_ifs <;> simp [weEnum]

theorem tidalRangeVal_mem (l : Option String)
    (ht : ∀ v, l = some v → v ∈ trEnum) : tidalRangeVal l ∈ trEnum := by
  cases h : l with
  | none => simp [tidalRangeVal, trEnum]
  | some v => simpa only [tidalRangeVal, Option.getD_some] using ht v h

theorem stormClimateVal_mem (l : Option String)
    (hc : ∀ v, l = some v → v ∈ scEnum) : stormClimateVal l ∈ scEnum := by
  cases h : l with
  | none => simp [stormClimateVal, scEnum]
  | some v => simpa only [stormClimateVal, Option.getD_some] using hc v h

theorem floraFaunaVal_mem (cfg : Cfg) (o : Oracle) (st : CHWState)
    (hff : st.flora_fauna = "Any") : floraFaunaVal cfg o st ∈ ffEnum := by
  unfold floraFaunaVal get_vegetation
  split_ifs <;> simp [ffEnum, hff]

theorem sedimentBalanceVal_mem (o : Oracle) (st : CHWState)
    (hsb : st.sediment_balance = "Balance/Deficit") :
    sedimentBalanceVal o st ∈ sbEnum := by
  unfold sedimentBalanceVal
  split_ifs with h1 h2
  · cases o.beachWkt with
    | none => simp [sbEnum]
    | some b =>
      cases b
      · cases o.beach200m with
        | none => simp [sbEnum]
        | some b2 => cases b2 <;> simp [sbEnum]
      · simp [sbEnum]
  · cases o.changeRate with
    | none => simp [sbEnum]
    | some r =>
      by_cases h3 : r > 0.5
      · simp only [if_pos h3]; simp [sbEnum]
      · simp only [if_neg h3]; simp [sbEnum, hsb]
  · simp [sbEnum, hsb]

/-! ## Claims -/

/-- C3 (counterexample): an elevation profile whose slope-sign sequence is
`(0, -1)` — a flat-to-downslope transition — yields no detected changepoint at
all: the pattern flags are all false, the changepoint index array is empty,
and `calc_slope` raises.  This refutes "every flat-to-sloped transition
(including flat-to-downslope, sign pair (0,-1)) is a changepoint". -/
theorem changepoint_flat_to_down_cex :
    msigns [some 0, some 0, some (-1)] [0, 30, 60] = [0, -1] ∧
    slope_patterns (msigns [some 0, some 0, some (-1)] [0, 30, 60]) = [false] ∧
    changepointIndices (slope_patterns (msigns [some 0, some 0, some (-1)] [0, 30, 60])) = [] := by
  refine ⟨?_, ?_, ?_⟩ <;> with_unfolding_all decide

/-- C3 (amended): the slope analyzer flags a changepoint at index `i` exactly
when the consecutive slope-sign pair `(sign[i], sign[i+1])` is one of
`(0,1)`, `(1,-1)`, `(-1,1)`, `(-1,0)`, `(1,0)`.  This set omits `(0,-1)`:
flat-to-downslope transitions are not changepoints. -/
theorem changepoint_pattern_iff (msign : List Int) (i : Nat) :
    (slope_patterns msign).get? i = some true ↔
    ∃ a b : Int, msign.get? i = some a ∧ msign.get? (i + 1) = some b ∧
      ((a, b) = (0, 1) ∨ (a, b) = (1, -1) ∨ (a, b) = (-1, 1) ∨
        (a, b) = (-1, 0) ∨ (a, b) = (1, 0)) := by
  rw [slope_patterns_eq, List.get?_map, zip_tail_get?]
  cases h1 : msign.get? i with
  | none => simp [h1]
  | some a =>
    cases h2 : msign.get? (i + 1) with
    | none => simp
    | some b =>
      simp only [Option.map_some]
      constructor
      · intro h
        have hp : pattern_pair (a, b) = true := Option.some_inj.mp h
        refine ⟨a, b, rfl, rfl, ?_⟩
        simp only [pattern_pair, Bool.or_eq_true, Bool.and_eq_true, beq_iff_eq] at hp
        simp only [Prod.mk.injEq]
        tauto
      · rintro ⟨a2, b2, ha2, hb2, hd⟩
        obtain rfl : a = a2 := Option.some_inj.mp ha2
        obtain rfl : b = b2 := Option.some_inj.mp hb2
        have hp : pattern_pair (a, b) = true := by
          simp only [pattern_pair, Bool.or_eq_true, Bool.and_eq_true, beq_iff_eq]
          simp only [Prod.mk.injEq] at hd
          tauto
        simp [hp]

/-- C2: for an elevation profile with fewer than two samples the slope-sign
array is empty, `calc_slope` raises, the constructor's handler catches it, and
the slope used by the classifier is `0.00`. -/
theorem slope_fail_soft_short_profile (elevations : List (Option ℚ)) (segments : List ℚ)
    (h : elevations.length < 2) :
    chwInitSlope elevations segments = 0 ∧
    ∃ e, calc_slope elevations segments = Except.error e := by
  match elevations with
  | [] => exact ⟨rfl, ⟨SlopeErr.indexOutOfBounds, rfl⟩⟩
  | [a] => exact ⟨rfl, ⟨SlopeErr.indexOutOfBounds, rfl⟩⟩
  | a :: b :: t => exact absurd h (by simp)

/-- C2 witness: a one-sample profile. -/
theorem slope_fail_soft_short_profile_witness :
    ([some (5 : ℚ)] : List (Option ℚ)).length < 2 ∧
    chwInitSlope [some (5 : ℚ)] [0] = 0 := by
  exact ⟨by decide, (slope_fail_soft_short_profile [some (5 : ℚ)] [0] (by decide)).1⟩

/-- C4 (code bug): on a strictly monotonic profile — slope signs all `+1`, no
changepoint — `calc_slope` does not return the end-to-end gradient
`|Δy/Δx × 100| = 10/3`: the loop indexes the empty changepoint array and
raises `IndexError`, and the constructor then silently defaults the slope to
`0.00`. -/
theorem calc_slope_monotonic_crash :
    calc_slope [some 0, some 1, some 2] [0, 30, 60] =
      Except.error SlopeErr.indexOutOfBounds ∧
    msigns [some 0, some 1, some 2] [0, 30, 60] = [1, 1] ∧
    chwInitSlope [some 0, some 1, some 2] [0, 30, 60] = 0 := by
  refine ⟨?_, ?_, ?_⟩
  · with_unfolding_all rfl
  · with_unfolding_all decide
  · with_unfolding_all decide

/-- C1 (counterexample): raw exposure `"exposed"`, 100 km lookup with 2
coastlines, 10 km lookup with 1 coastline — but the transect's coastline id is
not among the 10 km candidates, so the injection grows that set to 2 and the
10 km downgrade fires: the final wave exposure is `"protected"`, not
`"moderately exposed"` as claimed. -/
theorem wave_exposure_injection_cex :
    oCex1.waveLookup = some "exposed" ∧ oCex1.coasts100.length = 2 ∧
    oCex1.coasts10.length = 1 ∧ waveExposureVal oCex1 = "protected" := by
  refine ⟨rfl, rfl, rfl, ?_⟩
  with_unfolding_all decide

/-- C1 (amended): with raw exposure `"exposed"`, 2 coastlines from the 100 km
lookup and 1 coastline from the 10 km lookup, *and the known coastline id
already among the 10 km candidates* (so the id injection leaves that set a
singleton), only the 100 km downgrade applies and the final wave exposure is
`"moderately exposed"`. -/
theorem wave_exposure_exposed_downgrade (o : Oracle)
    (h1 : o.waveLookup = some "exposed")
    (h2 : o.coasts100.length = 2)
    (h3 : o.coasts10.length = 1)
    (h4 : o.coastline_id ∈ o.coasts10) :
    waveExposureVal o = "moderately exposed" := by
  have hc10 : injectId o.coastline_id o.coasts10 = o.coasts10 := by
    unfold injectId
    rw [if_pos h4]
  have hc100 : (injectId o.coastline_id o.coasts100).length > 1 := by
    unfold injectId
    split_ifs
    · omega
    · simp [List.length_append, h2]
  have hA : ¬(("exposed" : String) = "moderately exposed") := by decide
  have hB : ¬(o.coasts10.length > 1) := by omega
  unfold waveExposureVal
  rw [h1]
  simp only [Option.getD_some, hc10, if_neg hA,
    if_pos (rfl : ("exposed" : String) = "exposed"), if_neg hB, if_pos hc100, if_true]

/-- C1 witness: same scenario with the single 10 km coastline equal to the
transect's own id. -/
theorem wave_exposure_exposed_downgrade_witness :
    waveExposureVal oW1 = "moderately exposed" :=
  wave_exposure_exposed_downgrade oW1 rfl rfl rfl (by with_unfolding_all decide)

/-- C5: with corals present and slope strictly below the hard-rock cut-off,
when the small-estuary branch and the coral-island test do not fire, the
cascade assigns `"Flat hard rock"` regardless of the geology lookup. -/
theorem flat_hard_rock_priority (cfg : Cfg) (o : Oracle)
    (hcor : o.corals = true) (hsl : o.slope < cfg.slope_hr)
    (hest : ¬(((o.smallEstuaryWkt || o.smallEstuary100m) = true) ∧ o.slope ≤ cfg.slope_bd))
    (hci : check_coral_islands cfg o = false) :
    geoLayoutVal cfg o = "Flat hard rock" := by
  have hfhr : special_case_flat_hard_rock cfg o = true := by
    unfold special_case_flat_hard_rock
    rw [hcor]
    simp [hsl]
  unfold geoLayoutVal
  rw [if_neg hest, if_neg (by simp [hci]), if_pos hfhr]

/-- C5 witness: corals, slope 1, geology `"su"` — the layout is
`"Flat hard rock"` even though the geology-type rule alone would give
`"Sediment plain"`. -/
theorem flat_hard_rock_priority_witness :
    geoLayoutVal prodCfg oW5 = "Flat hard rock" ∧
    check_geology_type prodCfg (geology_material oW5.geology) oW5.slope = "Sediment plain" :=
  ⟨flat_hard_rock_priority prodCfg oW5 rfl (by with_unfolding_all decide)
      (by with_unfolding_all decide) (by with_unfolding_all decide),
    by with_unfolding_all decide⟩

/-- C6: when the cascade reaches the geology-type rule (geology known, no
earlier branch fired), the layout is exactly the four-case table on the
material and the hard-rock slope cut-off. -/
theorem geology_type_rule (cfg : Cfg) (o : Oracle)
    (h1 : ¬(((o.smallEstuaryWkt || o.smallEstuary100m) = true) ∧ o.slope ≤ cfg.slope_bd))
    (h2 : check_coral_islands cfg o = false)
    (h3 : special_case_flat_hard_rock cfg o = false)
    (h4 : special_case_sloping_hard_rock cfg o = false)
    (h5 : ¬((o.barriersSandspits = true) ∧ geology_material o.geology = "unconsolidated" ∧
      o.slope ≤ cfg.slope_bd))
    (h6 : ¬(((o.estuaries100m || o.estuariesWkt) = true) ∧
      geology_material o.geology = "unconsolidated" ∧ o.slope ≤ cfg.slope_bd))
    (h7 : o.geology ≠ none) :
    (geology_material o.geology = "unconsolidated" →
      (o.slope ≤ cfg.slope_hr → geoLayoutVal cfg o = "Sediment plain") ∧
      (o.slope > cfg.slope_hr → geoLayoutVal cfg o = "Sloping soft rock")) ∧
    (geology_material o.geology = "consolidated" →
      (o.slope ≤ cfg.slope_hr → geoLayoutVal cfg o = "Flat hard rock") ∧
      (o.slope > cfg.slope_hr → geoLayoutVal cfg o = "Sloping hard rock")) := by
  have key : geoLayoutVal cfg o = check_geology_type cfg (geology_material o.geology) o.slope := by
    unfold geoLayoutVal
    rw [if_neg h1, if_neg (by simp [h2]), if_neg (by simp [h3]), if_neg (by simp [h4]),
      if_neg h5, if_neg h6, if_pos h7]
  rw [key]
  unfold check_geology_type
  constructor
  · intro hm
    constructor
    · intro hs
      rw [if_pos ⟨hm, hs⟩]
    · intro hs
      rw [if_neg (fun hc => absurd hc.2 (not_le.mpr hs)), if_pos ⟨hm, hs⟩]
  · intro hm
    have hm2 : geology_material o.geology ≠ "unconsolidated" := by
      rw [hm]
      decide
    constructor
    · intro hs
      rw [if_neg (fun hc => hm2 hc.1), if_neg (fun hc => hm2 hc.1), if_pos ⟨hm, hs⟩]
    · intro hs
      rw [if_neg (fun hc => hm2 hc.1), if_neg (fun hc => hm2 hc.1),
        if_neg (fun hc => absurd hc.2 (not_le.mpr hs))]

/-- C6 witness: geology `"su"` (unconsolidated), slope 1 below the production
cut-off 3, no earlier branch firing: layout `"Sediment plain"`. -/
theorem geology_type_rule_witness : geoLayoutVal prodCfg oW6 = "Sediment plain" :=
  ((geology_type_rule prodCfg oW6 (by with_unfolding_all decide)
      (by with_unfolding_all decide) (by with_unfolding_all decide)
      (by with_unfolding_all decide) (by with_unfolding_all decide)
      (by with_unfolding_all decide) (by with_unfolding_all decide)).1
    (by with_unfolding_all decide)).1 (by with_unfolding_all decide)

/-- C7: when the six axes match no decision-table row, the code and all five
severities become the sentinel `"None"` without raising, and the measures
resolution for the sentinel code (whose grouped rows lack the
`"Ecosystem disruption"` category, as for any unknown code) yields
`["No measures were found"]` for every category. -/
theorem no_match_all_none (table : List DecisionRow) (gl we tr ff sb sc : String)
    (mtab : String → List (String × List String))
    (hrow : get_classes table gl we tr ff sb sc = none)
    (hm : dlookup (mtab "None") "Ecosystem disruption" = none) :
    hazards_classification table gl we tr ff sb sc =
      ⟨"None", .noneSentinel, .noneSentinel, .noneSentinel, .noneSentinel, .noneSentinel⟩ ∧
    provide_measures (mtab (hazards_classification table gl we tr ff sb sc).code) =
      noMeasures := by
  have h1 : hazards_classification table gl we tr ff sb sc =
      ⟨"None", .noneSentinel, .noneSentinel, .noneSentinel, .noneSentinel, .noneSentinel⟩ := by
    unfold hazards_classification
    rw [hrow]
  refine ⟨h1, ?_⟩
  have h2 : (hazards_classification table gl we tr ff sb sc).code = "None" := by
    rw [h1]
  rw [h2]
  unfold provide_measures
  rw [hm]

/-- C7 witness: an empty decision table and an empty measures table. -/
theorem no_match_all_none_witness :
    hazards_classification [] "Sediment plain" "exposed" "micro" "Corals" "Beach" "Yes" =
      ⟨"None", .noneSentinel, .noneSentinel, .noneSentinel, .noneSentinel, .noneSentinel⟩ ∧
    provide_measures ((fun _ => ([] : List (String × List String)))
      (hazards_classification [] "Sediment plain" "exposed" "micro" "Corals" "Beach" "Yes").code) =
      noMeasures :=
  no_match_all_none [] "Sediment plain" "exposed" "micro" "Corals" "Beach" "Yes"
    (fun _ => []) rfl rfl

/-- C8: the axis-field invariant — sentinels at construction, each stage
writes only its own axis field, each field keeps its sentinel until its stage
runs, after its stage each field is a valid member of its enumeration (under
the documented value ranges of the wave, tidal and cyclone lookups), and
later stages preserve earlier results. -/
theorem axis_fields_invariant (cfg : Cfg) (o : Oracle)
    (hw : ∀ v, o.waveLookup = some v → v ∈ weEnum)
    (ht : ∀ v, o.tidalLookup = some v → v ∈ trEnum)
    (hc : ∀ v, o.cycloneLookup = some v → v ∈ scEnum) :
    AxisInvariant cfg o := by
  unfold AxisInvariant
  exact ⟨⟨rfl, rfl, rfl, rfl, rfl, rfl⟩,
    fun st => ⟨rfl, rfl, rfl, rfl, rfl⟩,
    fun st => ⟨rfl, rfl, rfl, rfl, rfl⟩,
    fun st => ⟨rfl, rfl, rfl, rfl, rfl⟩,
    fun st => ⟨rfl, rfl, rfl, rfl, rfl⟩,
    fun st => ⟨rfl, rfl, rfl, rfl, rfl⟩,
    fun st => ⟨rfl, rfl, rfl, rfl, rfl⟩,
    ⟨rfl, rfl, rfl, rfl, rfl⟩, ⟨rfl, rfl, rfl, rfl⟩, ⟨rfl, rfl, rfl⟩, ⟨rfl, rfl⟩, rfl,
    geoLayoutVal_mem cfg o, waveExposureVal_mem o hw, tidalRangeVal_mem o.tidalLookup ht,
    floraFaunaVal_mem cfg o _ rfl, sedimentBalanceVal_mem o _ rfl,
    stormClimateVal_mem o.cycloneLookup hc,
    ⟨rfl, rfl, rfl, rfl, rfl⟩⟩

/-- C8 witness: the invariant at the production constants and a concrete
oracle whose lookups succeed with documented values. -/
theorem axis_fields_invariant_witness : AxisInvariant prodCfg oW8 :=
  axis_fields_invariant prodCfg oW8
    (fun v h => by
      have h2 : some "exposed" = some v := h
      injection h2 with h3
      subst h3
      simp [weEnum])
    (fun v h => by
      have h2 : some "meso" = some v := h
      injection h2 with h3
      subst h3
      simp [trEnum])
    (fun v h => by
      have h2 : some "Yes" = some v := h
      injection h2 with h3
      subst h3
      simp [scEnum])

/-- C9: when the elevation profile cannot be obtained the production
constructor defaults the slope to `0.00` and continues, while the strict
test-environment constructor raises the fatal "no elevation data" error (also
for a profile whose slope computation fails); every other fallible lookup of
the strict variant keeps the production fail-soft policy and never raises. -/
theorem strict_variant_fatal_elevation :
    initSlopeProd none = 0 ∧
    initSlopeStrict none = Except.error noElevationMsg ∧
    initSlopeProd (some ([some 3], [0])) = 0 ∧
    initSlopeStrict (some ([some 3], [0])) = Except.error noElevationMsg ∧
    (∀ l, (strictGeology l).isOk = true) ∧
    (∀ o : Oracle, (strictWave o).isOk = true) ∧
    (∀ l, (strictTidal l).isOk = true) ∧
    (∀ (o : Oracle) (st : CHWState), (strictSediment o st).isOk = true) ∧
    (∀ l, (strictStorm l).isOk = true) ∧
    (∀ (table : List DecisionRow) (gl we tr ff sb sc : String),
      (strictHazards table gl we tr ff sb sc).isOk = true) ∧
    (∀ rows, (strictMeasures rows).isOk = true) := by
  refine ⟨rfl, rfl, ?_, ?_, fun l => rfl, fun o => rfl, fun l => rfl, fun o st => rfl,
    fun l => rfl, fun t g w tr f sb sc => rfl, fun rows => rfl⟩
  · with_unfolding_all rfl
  · with_unfolding_all rfl

/-- C10: a transect with unknown geology gets material `"consolidated"`, so
the `"Barrier"` and `"Delta/ low estuary island"` branches can never fire and
the layout comes from the estuary, coral, or slope-only hard-rock branches. -/
theorem unknown_geology_consolidated (cfg : Cfg) (o : Oracle) (hg : o.geology = none) :
    geology_material o.geology = "consolidated" ∧
    geoLayoutVal cfg o ∈ (["Tidal inlet/sand spit/river mouth", "Coral island",
      "Flat hard rock", "Sloping hard rock"] : List String) ∧
    geoLayoutVal cfg o ≠ "Barrier" ∧ geoLayoutVal cfg o ≠ "Delta/ low estuary island" := by
  have hgm : geology_material o.geology = "consolidated" := by
    rw [hg]
    decide
  have hmem : geoLayoutVal cfg o ∈ (["Tidal inlet/sand spit/river mouth", "Coral island",
      "Flat hard rock", "Sloping hard rock"] : List String) := by
    unfold geoLayoutVal special_case_hard_rock
    split_ifs with b1 b2 b3 b4 b5 b6 b7 b8
    · simp
    · simp
    · simp
    · simp
    · exact absurd b5.2.1 (by rw [hgm]; decide)
    · exact absurd b6.2.1 (by rw [hgm]; decide)
    · exact absurd hg b7
    · simp
    · simp
  have hBarrier : geoLayoutVal cfg o ≠ "Barrier" := by
    intro heq
    rw [heq] at hmem
    simp at hmem
  have hDelta : geoLayoutVal cfg o ≠ "Delta/ low estuary island" := by
    intro heq
    rw [heq] at hmem
    simp at hmem
  exact ⟨hgm, hmem, hBarrier, hDelta⟩

/-- C10 witness: no geology, intersecting barriers and estuaries, slope 1 —
the layout falls through to the slope-only `"Flat hard rock"`. -/
theorem unknown_geology_consolidated_witness :
    geology_material oW10.geology = "consolidated" ∧
    geoLayoutVal prodCfg oW10 ∈ (["Tidal inlet/sand spit/river mouth", "Coral island",
      "Flat hard rock", "Sloping hard rock"] : List String) ∧
    geoLayoutVal prodCfg oW10 ≠ "Barrier" ∧
    geoLayoutVal prodCfg oW10 ≠ "Delta/ low estuary island" :=
  unknown_geology_consolidated prodCfg oW10 rfl
